import Mathlib

/-!
Verification of the command execution core of an in-memory key-value server
(single source file `src/server.c`), as a shallow embedding in Lean 4.

Each section embeds the C functions relevant to one family of claims,
keeping the source's names and branch structure, and proves the claimed
properties (or refutes them) over the embedded definitions.
-/

set_option maxRecDepth 4000

namespace Valkey

/- ===================================================================
   Time oracle and execution units (server.c: updateCachedTimeWithUs,
   enterExecutionUnit, exitExecutionUnit, commandTimeSnapshot)
   =================================================================== -/

/-- The server fields touched by the time oracle and the execution-unit
nesting tracker.  `execution_nesting` is a C `int`, modelled as `Int`. -/
structure TimeState where
  execution_nesting : Int
  ustime : Int
  mstime : Int
  unixtime : Int
  cmd_time_snapshot : Int
  deriving Repr, DecidableEq

/-- `updateCachedTimeWithUs(update_daylight_info, ustime)`: caches the wall
clock.  `server.mstime = server.ustime / 1000`, `server.unixtime =
server.mstime / 1000` (C integer division truncates toward zero, `Int.tdiv`).
The daylight-saving refresh touches no field of `TimeState` and is dropped. -/
def updateCachedTimeWithUs (s : TimeState) (us : Int) : TimeState :=
  let mst := Int.tdiv us 1000
  { s with ustime := us, mstime := mst, unixtime := Int.tdiv mst 1000 }

/-- `enterExecutionUnit(update_cached_time, us)`: post-increments
`server.execution_nesting`; only when the pre-increment value was 0 and
`update_cached_time` is set, refreshes the cached time (with `us`, or the
current time `now` if `us == 0`) and freezes
`server.cmd_time_snapshot = server.mstime`.  The ambient clock reading
`ustime()` is passed in as `now`. -/
def enterExecutionUnit (update_cached_time : Bool) (us now : Int) (s : TimeState) : TimeState :=
  let bumped : TimeState := { s with execution_nesting := s.execution_nesting + 1 }
  if s.execution_nesting = 0 && update_cached_time then
    let us' := if us = 0 then now else us
    let cached := updateCachedTimeWithUs bumped us'
    { cached with cmd_time_snapshot := cached.mstime }
  else
    bumped

/-- `exitExecutionUnit()`: decrements the nesting counter. -/
def exitExecutionUnit (s : TimeState) : TimeState :=
  { s with execution_nesting := s.execution_nesting - 1 }

/-- `commandTimeSnapshot()`: returns `server.cmd_time_snapshot`. -/
def commandTimeSnapshot (s : TimeState) : Int :=
  s.cmd_time_snapshot

/-- One event touching the execution-nesting tracker during an execution
unit: a nested `enterExecutionUnit` (from EXEC, scripts, or module calls)
or the matching `exitExecutionUnit`. -/
inductive ExecEvent where
  | enter (update_cached_time : Bool) (us now : Int)
  | exitUnit
  deriving Repr, DecidableEq

/-- Apply one event to the time state. -/
def applyExecEvent (s : TimeState) : ExecEvent → TimeState
  | .enter u us now => enterExecutionUnit u us now s
  | .exitUnit => exitExecutionUnit s

/-- Apply a sequence of nesting events. -/
def applyExecEvents (s : TimeState) : List ExecEvent → TimeState
  | [] => s
  | e :: rest => applyExecEvents (applyExecEvent s e) rest

/-- `insideUnitAll s evs` holds when the execution nesting stays at least 1
at every point while `evs` is applied starting from `s`: i.e. the events all
happen strictly inside an execution unit, before the matching outermost
exit. -/
def insideUnitAll (s : TimeState) : List ExecEvent → Bool
  | [] => true
  | e :: rest => decide (1 ≤ s.execution_nesting) && insideUnitAll (applyExecEvent s e) rest

theorem applyExecEvent_snapshot_eq (s : TimeState) (e : ExecEvent)
    (h : 1 ≤ s.execution_nesting) :
    (applyExecEvent s e).cmd_time_snapshot = s.cmd_time_snapshot := by
  cases e with
  | enter u us now =>
      have hne : ¬ s.execution_nesting = 0 := by omega
      simp [applyExecEvent, enterExecutionUnit, hne]
  | exitUnit => simp [applyExecEvent, exitExecutionUnit]

theorem snapshot_constant_of_insideUnitAll (evs : List ExecEvent) (s : TimeState)
    (h : insideUnitAll s evs = true) :
    (applyExecEvents s evs).cmd_time_snapshot = s.cmd_time_snapshot := by
  induction evs generalizing s with
  | nil => rfl
  | cons e rest ih =>
      simp only [insideUnitAll, Bool.and_eq_true, decide_eq_true_eq] at h
      calc (applyExecEvents (applyExecEvent s e) rest).cmd_time_snapshot
          = (applyExecEvent s e).cmd_time_snapshot := ih _ h.2
        _ = s.cmd_time_snapshot := applyExecEvent_snapshot_eq s e h.1

/-- C1: during one outermost command execution unit every read of
`commandTimeSnapshot` returns the same value.  Concretely: start from any
state, let the outermost `enterExecutionUnit` run (nesting rises 0 → 1 and
the snapshot is frozen), then apply any sequence of nested
`enterExecutionUnit`/`exitExecutionUnit` events that keeps the nesting at
least 1 (i.e. before the matching outermost exit).  After every prefix of
those nested events, `commandTimeSnapshot` returns exactly the value frozen
by the outermost entry; in particular no nested entry re-freezes it. -/
theorem commandTimeSnapshot_constant_in_unit
    (s0 : TimeState) (h0 : s0.execution_nesting = 0)
    (us now : Int) (evs pfx : List ExecEvent)
    (hpfx : pfx <+: evs)
    (hin : insideUnitAll (enterExecutionUnit true us now s0) evs = true) :
    commandTimeSnapshot (applyExecEvents (enterExecutionUnit true us now s0) pfx) =
      commandTimeSnapshot (enterExecutionUnit true us now s0) := by
  -- insideUnitAll restricted to a prefix still holds
  have hmono : ∀ (l₁ l₂ : List ExecEvent) (t : TimeState),
      l₁ <+: l₂ → insideUnitAll t l₂ = true → insideUnitAll t l₁ = true := by
    intro l₁
    induction l₁ with
    | nil => intro l₂ t _ _; rfl
    | cons e rest ih =>
        intro l₂ t hpre hall
        obtain ⟨l₃, rfl⟩ := hpre
        simp only [List.cons_append, insideUnitAll, Bool.and_eq_true] at hall ⊢
        exact ⟨hall.1, ih _ _ (List.prefix_append rest l₃) hall.2⟩
  exact snapshot_constant_of_insideUnitAll pfx _ (hmono pfx evs _ hpfx hin)

/-- Witness for C1 at a concrete input: a fresh state, an outermost entry at
time 5000 us, one nested enter (which supplies a different time 9000) and
its exit; the snapshot read between the nested events equals the frozen one. -/
theorem commandTimeSnapshot_constant_in_unit_witness :
    commandTimeSnapshot
        (applyExecEvents
          (enterExecutionUnit true 5000 0 ⟨0, 0, 0, 0, 0⟩)
          [.enter true 9000 0])
      = commandTimeSnapshot (enterExecutionUnit true 5000 0 ⟨0, 0, 0, 0, 0⟩) :=
  commandTimeSnapshot_constant_in_unit ⟨0, 0, 0, 0, 0⟩ rfl 5000 0
    [.enter true 9000 0, .exitUnit] [.enter true 9000 0]
    ⟨[.exitUnit], rfl⟩ (by decide)

/- ===================================================================
   Command propagation (server.c: shouldPropagate, propagateNow,
   alsoPropagate, serverOpArrayAppend, propagatePendingCommands,
   postExecutionUnitOperations)
   =================================================================== -/

/-- The propagation target bitset `{PROPAGATE_AOF, PROPAGATE_REPL}`;
`PROPAGATE_NONE` is the record with both bits clear. -/
structure PropTarget where
  aof : Bool
  repl : Bool
  deriving Repr, DecidableEq

def PROPAGATE_NONE : PropTarget := ⟨false, false⟩
def PROPAGATE_AOF : PropTarget := ⟨true, false⟩
def PROPAGATE_REPL : PropTarget := ⟨false, true⟩
def PROPAGATE_AOF_REPL : PropTarget := ⟨true, true⟩

/-- The server fields consulted by `shouldPropagate` and `propagateNow`.
`aof_state != AOF_OFF` is the boolean `aof_on`; `primary_host == NULL`
becomes `primary_host = none`; `server.repl_backlog` and
`listLength(server.replicas)` keep their roles. -/
structure ReplState where
  replication_allowed : Bool
  loading : Bool
  aof_on : Bool
  primary_host : Option String
  repl_backlog : Bool
  replicas_len : Nat
  deriving Repr, DecidableEq

/-- `shouldPropagate(target)`: returns 0 when replication is not allowed,
the target is `PROPAGATE_NONE`, or the server is loading; else returns 1
when the AOF bit is set and AOF is enabled, or the REPL bit is set and we
are a primary with a backlog or attached replicas. -/
def shouldPropagate (s : ReplState) (target : PropTarget) : Bool :=
  if !s.replication_allowed || target = PROPAGATE_NONE || s.loading then false
  else if target.aof && s.aof_on then true
  else if target.repl && (s.primary_host = none && (s.repl_backlog || s.replicas_len ≠ 0)) then true
  else false

/-- What one `propagateNow` call feeds: an append to the append-only file
(`feedAppendOnlyFile`) or to the replication stream
(`replicationFeedReplicas`), each with the database id and argument
vector.  Arguments are modelled as their byte strings. -/
inductive Emission where
  | toAOF (dbid : Int) (argv : List String)
  | toRepl (dbid : Int) (argv : List String)
  deriving Repr, DecidableEq

/-- `propagateNow(dbid, argv, argc, target)`: bails out when
`shouldPropagate` refuses; otherwise feeds the AOF when AOF is enabled and
the AOF bit is set, and the replication stream when the REPL bit is set.
The return value is the list of feeds performed, in order. -/
def propagateNow (s : ReplState) (dbid : Int) (argv : List String) (target : PropTarget) :
    List Emission :=
  if !shouldPropagate s target then []
  else
    (if s.aof_on && target.aof then [.toAOF dbid argv] else []) ++
    (if target.repl then [.toRepl dbid argv] else [])

/-- One entry of `server.also_propagate` (a `serverOp`): target bitset,
database id (−1 means "suppress SELECT"), argument vector. -/
structure ServerOp where
  dbid : Int
  argv : List String
  target : PropTarget
  deriving Repr, DecidableEq

/-- `serverOpArrayAppend`: appends the op to the array (the capacity
doubling is memory management with no observable effect on the sequence). -/
def serverOpArrayAppend (oa : List ServerOp) (dbid : Int) (argv : List String)
    (target : PropTarget) : List ServerOp :=
  oa ++ [⟨dbid, argv, target⟩]

/-- `alsoPropagate(dbid, argv, argc, target)`: bails out when
`shouldPropagate` refuses, otherwise appends an owned copy of the argument
vector to `server.also_propagate`. -/
def alsoPropagate (s : ReplState) (oa : List ServerOp) (dbid : Int) (argv : List String)
    (target : PropTarget) : List ServerOp :=
  if !shouldPropagate s target then oa
  else serverOpArrayAppend oa dbid argv target

/-- One call `propagateNow(dbid, argv, argc, target)` issued by
`propagatePendingCommands`, recorded with its arguments. -/
structure PropCall where
  dbid : Int
  argv : List String
  target : PropTarget
  deriving Repr, DecidableEq

/-- The state read by `propagatePendingCommands`: the queued
`server.also_propagate` array and the flags bitset of
`server.current_client->cmd` (`none` when `server.current_client` or its
`cmd` is NULL).  Only the `CMD_TOUCHES_ARBITRARY_KEYS` bit is consulted. -/
structure PendingState where
  also_propagate : List ServerOp
  current_cmd_touches_arbitrary_keys : Option Bool
  deriving Repr, DecidableEq

/-- `propagatePendingCommands()`: nothing when no ops are queued; sets
`transaction` when more than one op is queued, clears it when the current
client's current command has `CMD_TOUCHES_ARBITRARY_KEYS`; emits
`shared.multi` (dbid −1) before and `shared.exec` (dbid −1) after the ops
when `transaction` holds.  The result is the ordered list of `propagateNow`
calls issued. -/
def propagatePendingCommands (st : PendingState) : List PropCall :=
  if st.also_propagate.length = 0 then []
  else
    let transaction :=
      decide (1 < st.also_propagate.length) &&
        !(st.current_cmd_touches_arbitrary_keys.getD false)
    (if transaction then [⟨-1, ["MULTI"], PROPAGATE_AOF_REPL⟩] else []) ++
    st.also_propagate.map (fun op => PropCall.mk op.dbid op.argv op.target) ++
    (if transaction then [⟨-1, ["EXEC"], PROPAGATE_AOF_REPL⟩] else [])

/-- `postExecutionUnitOperations()`: returns immediately while
`server.execution_nesting` is nonzero; at the outermost level it flushes
the accumulated propagation with `propagatePendingCommands` (the module
jobs around it do not touch the propagation buffer). -/
def postExecutionUnitOperations (execution_nesting : Int) (st : PendingState) :
    List PropCall :=
  if execution_nesting ≠ 0 then []
  else propagatePendingCommands st

/-- C2: when the outermost execution unit finishes with N entries queued:
one entry is emitted directly; at least two entries are bracketed by exactly
one synthetic MULTI (database id −1) before the first and one EXEC after the
last; no bracketing when the current client's current command carries
`CMD_TOUCHES_ARBITRARY_KEYS`. -/
theorem propagatePendingCommands_bracketing (st : PendingState) :
    (∀ op, st.also_propagate = [op] →
        postExecutionUnitOperations 0 st = [⟨op.dbid, op.argv, op.target⟩]) ∧
    (2 ≤ st.also_propagate.length →
        st.current_cmd_touches_arbitrary_keys.getD false = false →
        postExecutionUnitOperations 0 st =
          ⟨-1, ["MULTI"], PROPAGATE_AOF_REPL⟩ ::
            st.also_propagate.map (fun op => PropCall.mk op.dbid op.argv op.target) ++
            [⟨-1, ["EXEC"], PROPAGATE_AOF_REPL⟩]) ∧
    (st.current_cmd_touches_arbitrary_keys.getD false = true →
        postExecutionUnitOperations 0 st =
          st.also_propagate.map (fun op => PropCall.mk op.dbid op.argv op.target)) := by
  refine ⟨?_, ?_, ?_⟩
  · intro op hop
    simp [postExecutionUnitOperations, propagatePendingCommands, hop]
  · intro hlen htouch
    have hne : ¬ st.also_propagate.length = 0 := by omega
    have htr : decide (1 < st.also_propagate.length) = true := by
      simp only [decide_eq_true_eq]; omega
    simp [postExecutionUnitOperations, propagatePendingCommands, hne, htr, htouch]
  · intro htouch
    by_cases hne : st.also_propagate.length = 0
    · have : st.also_propagate = [] := List.length_eq_zero.mp hne
      simp [postExecutionUnitOperations, propagatePendingCommands, this]
    · simp [postExecutionUnitOperations, propagatePendingCommands, hne, htouch]

/-- Witness for C2 at concrete inputs: two queued ops without the
touches-arbitrary-keys flag are bracketed; the same two ops with the flag
are not; a single op is emitted directly. -/
theorem propagatePendingCommands_bracketing_witness :
    postExecutionUnitOperations 0
        ⟨[⟨0, ["SET", "a", "1"], PROPAGATE_AOF_REPL⟩,
          ⟨0, ["SET", "b", "2"], PROPAGATE_AOF_REPL⟩], some false⟩ =
      [⟨-1, ["MULTI"], PROPAGATE_AOF_REPL⟩,
       ⟨0, ["SET", "a", "1"], PROPAGATE_AOF_REPL⟩,
       ⟨0, ["SET", "b", "2"], PROPAGATE_AOF_REPL⟩,
       ⟨-1, ["EXEC"], PROPAGATE_AOF_REPL⟩] ∧
    postExecutionUnitOperations 0
        ⟨[⟨0, ["DEL", "a"], PROPAGATE_AOF_REPL⟩,
          ⟨0, ["DEL", "b"], PROPAGATE_AOF_REPL⟩], some true⟩ =
      [⟨0, ["DEL", "a"], PROPAGATE_AOF_REPL⟩,
       ⟨0, ["DEL", "b"], PROPAGATE_AOF_REPL⟩] ∧
    postExecutionUnitOperations 0
        ⟨[⟨0, ["SET", "a", "1"], PROPAGATE_AOF_REPL⟩], some false⟩ =
      [⟨0, ["SET", "a", "1"], PROPAGATE_AOF_REPL⟩] := by
  refine ⟨?_, ?_, ?_⟩
  · exact (propagatePendingCommands_bracketing _).2.1 (by decide) (by decide)
  · exact (propagatePendingCommands_bracketing _).2.2 (by decide)
  · exact (propagatePendingCommands_bracketing
      ⟨[⟨0, ["SET", "a", "1"], PROPAGATE_AOF_REPL⟩], some false⟩).1
      ⟨0, ["SET", "a", "1"], PROPAGATE_AOF_REPL⟩ rfl

/-- C10: when `server.loading` is set, or replication is not allowed, or
the target bitset is empty, `alsoPropagate` leaves the propagation buffer
unchanged and `propagateNow` feeds neither the append-only file nor the
replication stream, for every database id and argument vector. -/
theorem propagation_noop_when_gated (s : ReplState) (oa : List ServerOp)
    (dbid : Int) (argv : List String) (target : PropTarget)
    (h : s.loading = true ∨ s.replication_allowed = false ∨ target = PROPAGATE_NONE) :
    alsoPropagate s oa dbid argv target = oa ∧
      propagateNow s dbid argv target = [] := by
  have hgate : shouldPropagate s target = false := by
    rcases h with h | h | h <;> simp [shouldPropagate, h]
  simp [alsoPropagate, propagateNow, hgate]

/-- Witness for C10 at a concrete input: a loading server propagates
nothing even for an AOF+REPL target. -/
theorem propagation_noop_when_gated_witness :
    alsoPropagate ⟨true, true, true, none, true, 1⟩
        [⟨0, ["SET", "k", "v"], PROPAGATE_AOF_REPL⟩] 0 ["DEL", "k"] PROPAGATE_AOF_REPL =
      [⟨0, ["SET", "k", "v"], PROPAGATE_AOF_REPL⟩] ∧
    propagateNow ⟨true, true, true, none, true, 1⟩ 0 ["DEL", "k"] PROPAGATE_AOF_REPL = [] :=
  propagation_noop_when_gated _ _ _ _ _ (Or.inl rfl)

/- ===================================================================
   The dispatcher (server.c: commandCheckArity, getCommandFlags,
   mustObeyClient, processCommand)
   =================================================================== -/

/-- The command-flag bits of a command descriptor consulted by the
dispatcher, one Bool per bit of the C flags bitset. -/
structure CmdFlags where
  write : Bool := false
  readonly : Bool := false
  denyoom : Bool := false
  noauth : Bool := false
  no_multi : Bool := false
  protectedCmd : Bool := false
  allow_busy : Bool := false
  stale : Bool := false
  loadingOk : Bool := false
  no_async_loading : Bool := false
  may_replicate : Bool := false
  movable_keys : Bool := false
  touches_arbitrary_keys : Bool := false
  deriving Repr, DecidableEq

/-- The command handlers (`proc` pointers) that `processCommand` compares
against; every other handler is `other`.  The eval/evalsha/fcall family
(and their read-only variants) is collapsed into `scriptLike` since
`getCommandFlags` treats them all by asking the scripting engine. -/
inductive CmdProc where
  | exec | discard | multiCmd | watch | quit | reset
  | ping | subscribe | ssubscribe | unsubscribe | sunsubscribe
  | psubscribe | punsubscribe | debug | moduleCmd | scriptLike | other
  deriving Repr, DecidableEq

/-- A command descriptor (`struct serverCommand`), restricted to the fields
the dispatcher reads: arity, flags, handler identity and the number of key
specs. -/
structure ServerCommand where
  arity : Int
  flags : CmdFlags := {}
  proc : CmdProc := .other
  key_specs_num : Nat := 0
  deriving Repr, DecidableEq

/-- `commandCheckArity(cmd, argc)`: fails when a positive arity is not
matched exactly or when `argc < -arity`. -/
def commandCheckArity (cmd : ServerCommand) (argc : Int) : Bool :=
  if (cmd.arity > 0 ∧ cmd.arity ≠ argc) ∨ argc < -cmd.arity then false else true

/-- The `cmd_flags`/`cmd_inv_flags` accumulated on a client's MULTI state
(`c->mstate`), as ORed over the queued commands. -/
structure MultiStateFlags where
  cmd_flags : CmdFlags := {}
  cmd_inv_flags : CmdFlags := {}
  deriving Repr, DecidableEq

/-- Everything `processCommand` reads: client fields, server fields, and
the results of the calls it makes into other subsystems (lookup, ACL,
cluster, eviction, ...), supplied as oracle fields. -/
structure PCState where
  /- client fields -/
  cmd0 : Option ServerCommand := none  -- `c->cmd` on entry; set means reprocessing
  argv0 : String := ""
  argc : Int := 1
  flag_multi : Bool := false
  mstate : Option MultiStateFlags := none
  flag_primary : Bool := false
  id_is_aof : Bool := false            -- `c->id == CLIENT_ID_AOF`
  capa_redirect : Bool := false        -- `c->capa & CLIENT_CAPA_REDIRECT`
  flag_readonly : Bool := false
  flag_replica : Bool := false
  flag_pubsub : Bool := false
  resp : Nat := 2
  /- server fields -/
  busy_module_yield : Bool := false        -- `busy_module_yield_flags != NONE`
  busy_yield_clients : Bool := false       -- `busy_module_yield_flags & YIELD_CLIENTS`
  cluster_enabled : Bool := false
  primary_host : Bool := false             -- `server.primary_host != NULL`
  failover_in_progress : Bool := false
  maxmemory : Nat := 0
  tracking_clients : Nat := 0
  repl_ignore_disk_write_error : Bool := false
  repl_replica_ro : Bool := true
  repl_state_connected : Bool := true
  repl_serve_stale_data : Bool := true
  loading : Bool := false
  async_loading : Bool := false
  paused_actions_all : Bool := false       -- `isPausedActions(PAUSE_ACTION_CLIENT_ALL)`
  paused_actions_write : Bool := false     -- `isPausedActions(PAUSE_ACTION_CLIENT_WRITE)`
  /- oracle results of external calls -/
  io_parsed_cmd : Option ServerCommand := none
  lookup_result : Option ServerCommand := none  -- `lookupCommand(c->argv, c->argc)`
  script_flags : CmdFlags := {}            -- `evalGetCommandFlags`/`fcallGetCommandFlags`
  allow_protected_debug : Bool := false    -- `allowProtectedAction(server.enable_debug_cmd, c)`
  allow_protected_module : Bool := false   -- `allowProtectedAction(server.enable_module_cmd, c)`
  auth_required : Bool := false            -- `authRequired(c)`
  acl_ok : Bool := true                    -- `ACLCheckAllPerm(c, ...) == ACL_OK`
  cluster_mynode : Bool := true            -- `getNodeByQuery` gave a node and it is myself
  evict_frees_current : Bool := false      -- `server.current_client == NULL` after `evictClients`
  inside_yielding_long_command : Bool := false  -- `isInsideYieldingLongCommand()`
  perform_evictions_fail : Bool := false   -- `performEvictions() == EVICT_FAIL`
  evictions_free_current : Bool := false   -- current client freed by `performEvictions`
  disk_error : Bool := false               -- `writeCommandsDeniedByDiskError() != NONE`
  good_replicas : Bool := true             -- `checkGoodReplicasStatus()`
  deriving Repr, DecidableEq

/-- `mustObeyClient(c)`: commands from the AOF client or our primary are
never rejected. -/
def mustObeyClient (s : PCState) : Bool :=
  s.id_is_aof || s.flag_primary

/-- `getCommandFlags(c)`: the command's flags, except that the eval/fcall
family asks the scripting engine for declared flags. -/
def getCommandFlags (s : PCState) (cmd : ServerCommand) : CmdFlags :=
  if cmd.proc = .scriptLike then s.script_flags else cmd.flags

/-- The errors with which the dispatcher rejects a command before
executing it. -/
inductive RejectErr where
  | unknownCmd | wrongArity | protectedCmd | noauth | noMultiInTx | noperm
  | clusterRedirect | standaloneRedirect | oomErr | diskError | noReplicas
  | roReplica | pubsubCtx | staleReplica | loadingErr | busyErr | replicaKeyspace
  deriving Repr, DecidableEq

/-- The observable outcome of `processCommand`: forced disconnect after the
security warning, client postponed (`blockPostponeClient`), current client
freed (C_ERR), `serverPanic`, rejection with an error reply, command queued
into the MULTI state, or handler invoked through `call()`. -/
inductive PCOutcome where
  | securityErr | postponed | freedCurrentClient | panicked
  | rejected (e : RejectErr) | queuedMulti | called
  deriving Repr, DecidableEq

/-- The state-changing subsystem calls `processCommand` makes on the way to
the handler, in order. -/
inductive PCAction where
  | actEvictClients
  | actPerformEvictions
  | actHandleTrackingInvalidations
  | actSetPreCommandOomState (oom : Bool)
  | actTrackingLimitUsedSlots
  | actQueueMulti
  | actInvokeHandler (reprocessing : Bool)
  deriving Repr, DecidableEq

structure PCResult where
  outcome : PCOutcome
  actions : List PCAction
  deriving Repr, DecidableEq

/-- The tail of `processCommand` after command lookup: flag aggregation and
the gate chain, from the auth check to `call()`.  `cmd` is `c->cmd`,
`reprocessing` tells whether this is a post-unblock replay. -/
def processCommandRest (s : PCState) (cmd : ServerCommand) (reprocessing : Bool) : PCResult :=
  let cmd_flags := getCommandFlags s cmd
  let is_exec := s.mstate.isSome ∧ cmd.proc = .exec
  let ms_flags := if is_exec then (s.mstate.getD {}).cmd_flags else {}
  let ms_inv_flags := if is_exec then (s.mstate.getD {}).cmd_inv_flags else {}
  let is_read_command := cmd_flags.readonly || ms_flags.readonly
  let is_write_command := cmd_flags.write || ms_flags.write
  let is_denyoom_command := cmd_flags.denyoom || ms_flags.denyoom
  let is_denystale_command := !cmd_flags.stale || ms_inv_flags.stale
  let is_denyloading_command := !cmd_flags.loadingOk || ms_inv_flags.loadingOk
  let is_may_replicate_command :=
    (cmd_flags.write || cmd_flags.may_replicate) || (ms_flags.write || ms_flags.may_replicate)
  let is_deny_async_loading_command := cmd_flags.no_async_loading || ms_flags.no_async_loading
  let obey_client := mustObeyClient s
  if s.auth_required && !cmd.flags.noauth then ⟨.rejected .noauth, []⟩
  else if s.flag_multi && cmd.flags.no_multi then ⟨.rejected .noMultiInTx, []⟩
  else if !s.acl_ok then ⟨.rejected .noperm, []⟩
  else if s.cluster_enabled && !obey_client &&
      !(!cmd.flags.movable_keys && cmd.key_specs_num = 0 && !(cmd.proc = .exec)) &&
      !s.cluster_mynode then ⟨.rejected .clusterRedirect, []⟩
  else if !s.cluster_enabled && s.capa_redirect && s.primary_host && !obey_client &&
      (is_write_command || (is_read_command && !s.flag_readonly)) then
    if s.failover_in_progress then ⟨.postponed, []⟩
    else ⟨.rejected .standaloneRedirect, []⟩
  else
    let acts1 : List PCAction := [.actEvictClients]
    if s.evict_frees_current then ⟨.freedCurrentClient, acts1⟩
    else
      let mem_gate := decide (s.maxmemory ≠ 0) && !s.inside_yielding_long_command
      let acts2 := if mem_gate
        then acts1 ++ [.actPerformEvictions, .actHandleTrackingInvalidations]
        else acts1
      if mem_gate && s.evictions_free_current then ⟨.freedCurrentClient, acts2⟩
      else if mem_gate && s.perform_evictions_fail && is_denyoom_command then
        ⟨.rejected .oomErr, acts2⟩
      else
        let acts3 := if mem_gate
          then acts2 ++ [.actSetPreCommandOomState s.perform_evictions_fail]
          else acts2
        let acts4 := acts3 ++
          (if s.tracking_clients ≠ 0 then [.actTrackingLimitUsedSlots] else [])
        if s.disk_error && (is_write_command || cmd.proc = .ping) &&
            obey_client && !s.repl_ignore_disk_write_error && !(cmd.proc = .ping) then
          ⟨.panicked, acts4⟩
        else if s.disk_error && (is_write_command || cmd.proc = .ping) && !obey_client then
          ⟨.rejected .diskError, acts4⟩
        else if is_write_command && !s.good_replicas then ⟨.rejected .noReplicas, acts4⟩
        else if s.primary_host && s.repl_replica_ro && !obey_client && is_write_command then
          ⟨.rejected .roReplica, acts4⟩
        else if s.flag_pubsub && s.resp = 2 &&
            !(cmd.proc = .ping ∨ cmd.proc = .subscribe ∨ cmd.proc = .ssubscribe ∨
              cmd.proc = .unsubscribe ∨ cmd.proc = .sunsubscribe ∨
              cmd.proc = .psubscribe ∨ cmd.proc = .punsubscribe ∨
              cmd.proc = .quit ∨ cmd.proc = .reset) then
          ⟨.rejected .pubsubCtx, acts4⟩
        else if s.primary_host && !s.repl_state_connected && !s.repl_serve_stale_data &&
            is_denystale_command then ⟨.rejected .staleReplica, acts4⟩
        else if s.loading && !s.async_loading && is_denyloading_command then
          ⟨.rejected .loadingErr, acts4⟩
        else if s.async_loading && is_deny_async_loading_command then
          ⟨.rejected .loadingErr, acts4⟩
        else if s.inside_yielding_long_command && !cmd.flags.allow_busy then
          ⟨.rejected .busyErr, acts4⟩
        else if s.flag_replica &&
            (is_may_replicate_command || is_write_command || is_read_command) then
          ⟨.rejected .replicaKeyspace, acts4⟩
        else if !s.flag_replica &&
            (s.paused_actions_all || (s.paused_actions_write && is_may_replicate_command)) then
          ⟨.postponed, acts4⟩
        else if s.flag_multi && !(cmd.proc = .exec) && !(cmd.proc = .discard) &&
            !(cmd.proc = .multiCmd) && !(cmd.proc = .watch) && !(cmd.proc = .quit) &&
            !(cmd.proc = .reset) then
          ⟨.queuedMulti, acts4 ++ [.actQueueMulti]⟩
        else ⟨.called, acts4 ++ [.actInvokeHandler reprocessing]⟩

/-- `processCommand(c)`: the yield gate, then (unless the command pointer
is already set from a blocked-and-unblocked command) lookup, existence,
arity and protected-command checks, then the gate chain
(`processCommandRest`). -/
def processCommand (s : PCState) : PCResult :=
  if s.busy_module_yield && !s.busy_yield_clients then ⟨.postponed, []⟩
  else
    match s.cmd0 with
    | some cmd => processCommandRest s cmd true
    | none =>
      let cmdOpt := match s.io_parsed_cmd with
        | some c => some c
        | none => s.lookup_result
      match cmdOpt with
      | none =>
        if s.argv0.toLower = "host:" || s.argv0.toLower = "post" then ⟨.securityErr, []⟩
        else ⟨.rejected .unknownCmd, []⟩
      | some cmd =>
        if !commandCheckArity cmd s.argc then ⟨.rejected .wrongArity, []⟩
        else if cmd.flags.protectedCmd &&
            ((cmd.proc = .debug && !s.allow_protected_debug) ||
             (cmd.proc = .moduleCmd && !s.allow_protected_module)) then
          ⟨.rejected .protectedCmd, []⟩
        else processCommandRest s cmd false

/-- C3: a positive arity is accepted exactly when `argc` equals it, a
negative arity exactly when `argc` is at least `-arity`; a command failing
the check is rejected with the wrong-number-of-arguments error before any
gate runs and before the handler can be invoked. -/
theorem commandCheckArity_iff (cmd : ServerCommand) (argc : Int) :
    commandCheckArity cmd argc = true ↔
      ¬((cmd.arity > 0 ∧ cmd.arity ≠ argc) ∨ argc < -cmd.arity) := by
  by_cases h : (cmd.arity > 0 ∧ cmd.arity ≠ argc) ∨ argc < -cmd.arity <;>
    simp [commandCheckArity, h]

theorem commandCheckArity_exact_or_minimum (cmd : ServerCommand) (argc : Int) :
    (0 < cmd.arity → (commandCheckArity cmd argc = true ↔ argc = cmd.arity)) ∧
    (cmd.arity < 0 → (commandCheckArity cmd argc = true ↔ -cmd.arity ≤ argc)) ∧
    (∀ s : PCState, s.busy_module_yield = false → s.cmd0 = none →
      s.io_parsed_cmd = some cmd → s.argc = argc →
      commandCheckArity cmd argc = false →
      processCommand s = ⟨.rejected .wrongArity, []⟩) := by
  refine ⟨?_, ?_, ?_⟩
  · intro hpos
    rw [commandCheckArity_iff]
    omega
  · intro hneg
    rw [commandCheckArity_iff]
    omega
  · intro s hbusy hcmd0 hio hargc hfail
    simp [processCommand, hbusy, hcmd0, hio, hargc, hfail]

/-- A concrete dispatcher state for the C3 witness: fresh (non-reprocessing)
client sending three arguments to a command of exact arity 2. -/
def c3WitnessState : PCState :=
  { cmd0 := none, argc := 3, io_parsed_cmd := some { arity := 2 } }

/-- Witness for C3: the PING-like descriptor (arity −1) accepts two
arguments; a descriptor with arity 2 rejects three arguments with the arity
error and no gate or handler runs. -/
theorem commandCheckArity_exact_or_minimum_witness :
    (commandCheckArity { arity := -1, proc := .ping } 2 = true) ∧
    processCommand c3WitnessState = ⟨.rejected .wrongArity, []⟩ := by
  constructor
  · exact (commandCheckArity_exact_or_minimum { arity := -1, proc := .ping } 2).2.1
      (by norm_num) |>.mpr (by norm_num)
  · exact (commandCheckArity_exact_or_minimum { arity := 2 } 3).2.2 c3WitnessState
      rfl rfl rfl rfl (by decide)

/-- C4: with `maxmemory` set and no yielding script/module in progress, the
dispatcher performs eviction (`performEvictions`) before the command
executes, and when eviction fails to free enough memory a deny-OOM command
is rejected with the shared OOM error without its handler being invoked.
The hypotheses route a fresh command past the earlier gates to the memory
gate. -/
theorem processCommand_oom_gate (s : PCState) (cmd : ServerCommand)
    (hbusy : s.busy_module_yield = false)
    (hcmd0 : s.cmd0 = none)
    (hio : s.io_parsed_cmd = some cmd)
    (harity : commandCheckArity cmd s.argc = true)
    (hprot : cmd.flags.protectedCmd = false)
    (hauth : s.auth_required = false)
    (hflagmulti : s.flag_multi = false)
    (hacl : s.acl_ok = true)
    (hclu : s.cluster_enabled = false)
    (hcapa : s.capa_redirect = false)
    (hevict1 : s.evict_frees_current = false)
    (hmax : s.maxmemory ≠ 0)
    (hyield : s.inside_yielding_long_command = false)
    (hevict2 : s.evictions_free_current = false) :
    (s.perform_evictions_fail = true → (getCommandFlags s cmd).denyoom = true →
      processCommand s =
        ⟨.rejected .oomErr,
         [.actEvictClients, .actPerformEvictions, .actHandleTrackingInvalidations]⟩) ∧
    (s.tracking_clients = 0 → s.disk_error = false → s.good_replicas = true →
      s.primary_host = false → s.flag_pubsub = false → s.loading = false →
      s.async_loading = false → s.flag_replica = false →
      s.paused_actions_all = false → s.paused_actions_write = false →
      s.perform_evictions_fail = false →
      processCommand s =
        ⟨.called,
         [.actEvictClients, .actPerformEvictions, .actHandleTrackingInvalidations,
          .actSetPreCommandOomState false,
          .actInvokeHandler false]⟩) := by
  constructor
  · intro hfail hdeny
    simp [processCommand, processCommandRest, hbusy, hcmd0, hio, harity, hprot, hauth,
      hflagmulti, hacl, hclu, hcapa, hevict1, hmax, hyield, hevict2, hfail, hdeny]
  · intro htrk hdisk hgood hph hps hload hasync hrep hpall hpwr hok
    simp [processCommand, processCommandRest, hbusy, hcmd0, hio, harity, hprot, hauth,
      hflagmulti, hacl, hclu, hcapa, hevict1, hmax, hyield, hevict2, htrk, hdisk,
      hgood, hph, hps, hload, hasync, hrep, hpall, hpwr, hok]

/-- A deny-OOM SET-like descriptor for the C4 witness. -/
def c4Cmd : ServerCommand :=
  { arity := 3, flags := { write := true, denyoom := true } }

/-- A dispatcher state at the memory gate with failing evictions for the
C4 witness. -/
def c4WitnessState : PCState :=
  { argc := 3, io_parsed_cmd := some c4Cmd, maxmemory := 100,
    perform_evictions_fail := true }

/-- Witness for C4: a deny-OOM write command under failed eviction is
rejected with the OOM error after `evictClients` and `performEvictions`
but without invoking the handler; the same state with eviction succeeding
invokes the handler after eviction ran. -/
theorem processCommand_oom_gate_witness :
    processCommand c4WitnessState =
      ⟨.rejected .oomErr,
       [.actEvictClients, .actPerformEvictions, .actHandleTrackingInvalidations]⟩ ∧
    processCommand { c4WitnessState with perform_evictions_fail := false } =
      ⟨.called,
       [.actEvictClients, .actPerformEvictions, .actHandleTrackingInvalidations,
        .actSetPreCommandOomState false, .actInvokeHandler false]⟩ := by
  constructor
  · exact (processCommand_oom_gate c4WitnessState c4Cmd rfl rfl rfl (by decide) rfl rfl
      rfl rfl rfl rfl rfl (by decide) rfl rfl).1 rfl rfl
  · exact (processCommand_oom_gate { c4WitnessState with perform_evictions_fail := false }
      c4Cmd rfl rfl rfl (by decide) rfl rfl rfl rfl rfl rfl rfl (by decide) rfl rfl).2
      rfl rfl rfl rfl rfl rfl rfl rfl rfl rfl rfl

/- ===================================================================
   Pre-execution rejection and transactions (server.c: rejectCommand,
   rejectCommandSds, rejectCommandFormat; multi.c is not part of src/ so
   flagTransaction, execCommandAbort and execCommand are modelled from
   the spec)
   =================================================================== -/

/-- The client fields touched by the rejection helpers and by EXEC: the
MULTI-in-progress flag, the dirty flag, the current command, the queued
transaction commands, and the per-command rejection counter. -/
structure ClientTx where
  flag_multi : Bool := false
  flag_dirty_exec : Bool := false
  cmd : Option ServerCommand := none
  mstate_ops : List (List String) := []
  rejected_calls : Nat := 0
  duration : Int := 0
  deriving Repr, DecidableEq

/-- Replies produced by the rejection helpers and by EXEC. -/
inductive TxReply where
  | errReply (msg : String)
  | execAbortReply (msg : String)
  | execResults
  deriving Repr, DecidableEq

/-- Modelled from the spec: `flagTransaction` lives in `multi.c`, which is
not part of src/.  Per the spec, "Rejections flag an in-progress
transaction as dirty so a later EXEC aborts with EXECABORT": when the
client is inside MULTI, mark the transaction dirty. -/
def flagTransaction (c : ClientTx) : ClientTx :=
  if c.flag_multi then { c with flag_dirty_exec := true } else c

/-- Modelled from the spec: `execCommandAbort` lives in `multi.c`, which is
not part of src/.  Rejecting EXEC itself aborts the transaction: the queued
commands are discarded and the client leaves MULTI with an EXECABORT
error carrying the rejection reason. -/
def execCommandAbort (c : ClientTx) (error : String) : ClientTx × TxReply :=
  ({ c with flag_multi := false, flag_dirty_exec := false, mstate_ops := [] },
   .execAbortReply error)

/-- `rejectCommand(c, reply)`: flags the transaction, resets the duration,
counts the rejection, and either aborts an EXEC or replies the error
object. -/
def rejectCommand (c : ClientTx) (reply : String) : ClientTx × TxReply :=
  let c1 := flagTransaction c
  let c2 := { c1 with duration := 0,
                      rejected_calls :=
                        c1.rejected_calls + (if c1.cmd.isSome then 1 else 0) }
  if c2.cmd.map (·.proc) = some .exec then execCommandAbort c2 reply
  else (c2, .errReply reply)

/-- `rejectCommandSds(c, s)`: same as `rejectCommand` with an sds error
message. -/
def rejectCommandSds (c : ClientTx) (s : String) : ClientTx × TxReply :=
  let c1 := flagTransaction c
  let c2 := { c1 with duration := 0,
                      rejected_calls :=
                        c1.rejected_calls + (if c1.cmd.isSome then 1 else 0) }
  if c2.cmd.map (·.proc) = some .exec then execCommandAbort c2 s
  else (c2, .errReply s)

/-- `sdsmapchars(s, "\r\n", "  ", 2)`: CR and LF are replaced by spaces so
the reply stays valid protocol. -/
def sdsmapchars_crlf (s : String) : String :=
  s.map (fun ch => if ch = '\r' ∨ ch = '\n' then ' ' else ch)

/-- `rejectCommandFormat(c, fmt, ...)`: formats the message (taken here as
already formatted), strips newlines, and delegates to `rejectCommandSds`. -/
def rejectCommandFormat (c : ClientTx) (msg : String) : ClientTx × TxReply :=
  rejectCommandSds c (sdsmapchars_crlf msg)

/-- Modelled from the spec: `execCommand` lives in `multi.c`, which is not
part of src/.  Per the spec ("a later EXEC aborts with EXECABORT", "no
entries propagated"), a dirty transaction makes EXEC reply EXECABORT and
discard the queue without propagating anything; otherwise the queued
commands run and are the entries propagated by the execution unit. -/
def execCommand (c : ClientTx) : ClientTx × TxReply × List (List String) :=
  if c.flag_dirty_exec then
    ({ c with flag_multi := false, flag_dirty_exec := false, mstate_ops := [] },
     .execAbortReply "Transaction discarded because of previous errors.", [])
  else
    ({ c with flag_multi := false, mstate_ops := [] }, .execResults, c.mstate_ops)

/-- C5: each pre-execution rejection helper marks an in-progress MULTI
transaction dirty, and a later EXEC on the resulting client replies with an
EXECABORT error and propagates none of the aborted transaction's entries. -/
theorem reject_flags_transaction_and_exec_aborts (c : ClientTx) (msg : String)
    (hmulti : c.flag_multi = true)
    (hnotexec : ¬ c.cmd.map (·.proc) = some .exec) :
    ((rejectCommand c msg).1.flag_dirty_exec = true ∧
     (rejectCommandSds c msg).1.flag_dirty_exec = true ∧
     (rejectCommandFormat c msg).1.flag_dirty_exec = true) ∧
    (∀ c' : ClientTx, c'.flag_dirty_exec = true →
      (execCommand c').2.1 =
          .execAbortReply "Transaction discarded because of previous errors." ∧
        (execCommand c').2.2 = []) := by
  constructor
  · refine ⟨?_, ?_, ?_⟩ <;>
      simp [rejectCommand, rejectCommandSds, rejectCommandFormat, execCommandAbort,
        flagTransaction, hmulti, hnotexec]
  · intro c' hdirty
    simp [execCommand, hdirty]

/-- Witness for C5: a client inside MULTI whose current command (bad-arity
GET) is rejected ends up dirty, and EXEC then aborts without propagating
the queued SET. -/
theorem reject_flags_transaction_and_exec_aborts_witness :
    (rejectCommandSds
        { flag_multi := true, cmd := some { arity := 2 },
          mstate_ops := [["SET", "a", "1"]] }
        "wrong number of arguments").1.flag_dirty_exec = true ∧
    (execCommand
        (rejectCommandSds
          { flag_multi := true, cmd := some { arity := 2 },
            mstate_ops := [["SET", "a", "1"]] }
          "wrong number of arguments").1).2.2 = [] := by
  have h := reject_flags_transaction_and_exec_aborts
    { flag_multi := true, cmd := some { arity := 2 },
      mstate_ops := [["SET", "a", "1"]] }
    "wrong number of arguments" rfl (by decide)
  exact ⟨h.1.2.1, (h.2 _ h.1.2.1).2⟩

/- ===================================================================
   Periodic database maintenance (server.c: hasActiveChildProcess,
   updateDictResizePolicy, databasesCron)
   =================================================================== -/

/-- The server fields read by `databasesCron`, together with the static
per-call counters it keeps (`resize_db`, `rehash_db`). -/
structure CronState where
  active_expire_enabled : Bool := true
  i_am_primary : Bool := true        -- `iAmPrimary()`
  import_mode : Bool := false
  in_fork_child : Bool := false      -- `server.in_fork_child != CHILD_TYPE_NONE`
  child_pid : Int := -1
  dbnum : Nat := 16
  activerehashing : Bool := true
  hz : Nat := 10
  resize_db : Nat := 0
  rehash_db : Nat := 0
  deriving Repr, DecidableEq

/-- `hasActiveChildProcess()`: a persistence child is alive when
`server.child_pid != -1`. -/
def hasActiveChildProcess (s : CronState) : Bool :=
  s.child_pid ≠ -1

/-- The resize/rehash policy that `updateDictResizePolicy` installs into
the hash-table implementation. -/
inductive ResizePolicy where
  | forbid | avoid | allow
  deriving Repr, DecidableEq

/-- `updateDictResizePolicy()`: forbid resizing inside a fork child, avoid
it while a persistence child is active, allow it otherwise. -/
def updateDictResizePolicy (s : CronState) : ResizePolicy :=
  if s.in_fork_child then .forbid
  else if hasActiveChildProcess s then .avoid
  else .allow

/-- The subsystem calls `databasesCron` makes, in order.  The `expires`
flag distinguishes the `db->expires` kvstore from `db->keys`. -/
inductive DbCronAction where
  | actExpireReplicaKeys
  | actActiveExpireCycle
  | actMonitorActiveDefrag
  | actTryResizeHashtables (dbid : Nat) (expires : Bool)
  | actIncrementallyRehash (dbid : Nat) (expires : Bool)
  deriving Repr, DecidableEq

/-- Whether a cron action is a resize attempt or incremental rehashing
(the two calls that can change a hash table's bucket count). -/
def DbCronAction.touchesBuckets : DbCronAction → Bool
  | .actTryResizeHashtables _ _ => true
  | .actIncrementallyRehash _ _ => true
  | _ => false

/-- The rehash loop of `databasesCron`: per database, rehash the keys table
then the expires table, accumulating the elapsed microseconds reported by
`kvstoreIncrementallyRehash` (supplied by the oracles `costK`/`costE`,
indexed by iteration) and stopping once `threshold` is reached. -/
def rehashLoop (dbnum : Nat) (costK costE : Nat → Nat) (threshold : Nat) :
    Nat → Nat → Nat → Nat → List DbCronAction
  | 0, _, _, _ => []
  | fuel + 1, j, rehash_db, elapsed =>
    let db := rehash_db % dbnum
    let e1 := elapsed + costK j
    if threshold ≤ e1 then [.actIncrementallyRehash db false]
    else
      let e2 := e1 + costE j
      if threshold ≤ e2 then
        [.actIncrementallyRehash db false, .actIncrementallyRehash db true]
      else
        .actIncrementallyRehash db false :: .actIncrementallyRehash db true ::
          rehashLoop dbnum costK costE threshold fuel (j + 1) (rehash_db + 1) e2

/-- `databasesCron()`: active expiration (replica-flavoured on replicas,
full cycle on a primary outside import mode), defrag monitoring, and —
only when no persistence child is active — resize attempts and incremental
rehashing over `dbs_per_call` databases.  `cron_dbs_per_call` is the
`CRON_DBS_PER_CALL` constant and `costK`/`costE` report the microseconds
spent by each `kvstoreIncrementallyRehash` call. -/
def databasesCron (s : CronState) (cron_dbs_per_call : Nat) (costK costE : Nat → Nat) :
    List DbCronAction :=
  (if s.active_expire_enabled then
    if !s.i_am_primary then [.actExpireReplicaKeys]
    else if !s.import_mode then [.actActiveExpireCycle]
    else []
   else []) ++
  [.actMonitorActiveDefrag] ++
  (if !hasActiveChildProcess s then
    let dbs_per_call := if s.dbnum < cron_dbs_per_call then s.dbnum else cron_dbs_per_call
    ((List.range dbs_per_call).map (fun j =>
        [DbCronAction.actTryResizeHashtables ((s.resize_db + j) % s.dbnum) false,
         DbCronAction.actTryResizeHashtables ((s.resize_db + j) % s.dbnum) true])).flatten ++
    (if s.activerehashing then
      rehashLoop s.dbnum costK costE (1 * 1000000 / s.hz / 100) dbs_per_call 0 s.rehash_db 0
     else [])
   else [])

/-- A map from (database id, is-expires-table) to that hash table's bucket
count. -/
def BucketMap : Type := Nat × Bool → Nat

/-- Modelled from the spec: `kvstore.c` is not part of src/.  Running the
cron's actions over the bucket counts: a resize attempt or incremental
rehash transforms the counts by the (arbitrary) kvstore semantics
`resizeUpd`/`rehashUpd`; per the spec, expiration sampling and defrag
monitoring do not change bucket counts. -/
def runBuckets (resizeUpd rehashUpd : Nat → Bool → BucketMap → BucketMap) :
    List DbCronAction → BucketMap → BucketMap
  | [], m => m
  | a :: rest, m =>
    let m' := match a with
      | .actTryResizeHashtables db e => resizeUpd db e m
      | .actIncrementallyRehash db e => rehashUpd db e m
      | _ => m
    runBuckets resizeUpd rehashUpd rest m'

/-- C6: while a persistence child is alive, `databasesCron` performs no
resize attempt and no incremental rehashing on any database, so the keys
and expires tables' bucket counts are unchanged by the cron whatever the
kvstore resize/rehash semantics are. -/
theorem databasesCron_no_resize_while_child (s : CronState)
    (cron_dbs_per_call : Nat) (costK costE : Nat → Nat)
    (hchild : hasActiveChildProcess s = true) :
    (∀ a ∈ databasesCron s cron_dbs_per_call costK costE, a.touchesBuckets = false) ∧
    (∀ (resizeUpd rehashUpd : Nat → Bool → BucketMap → BucketMap) (m : BucketMap),
      runBuckets resizeUpd rehashUpd (databasesCron s cron_dbs_per_call costK costE) m = m) := by
  have hform : databasesCron s cron_dbs_per_call costK costE =
      (if s.active_expire_enabled then
        if !s.i_am_primary then [.actExpireReplicaKeys]
        else if !s.import_mode then [.actActiveExpireCycle]
        else []
       else []) ++ [.actMonitorActiveDefrag] := by
    simp [databasesCron, hchild]
  constructor
  · intro a ha
    rw [hform] at ha
    rcases List.mem_append.mp ha with h | h
    · split at h
      · split at h
        · simp only [List.mem_singleton] at h
          simp [h, DbCronAction.touchesBuckets]
        · split at h
          · simp only [List.mem_singleton] at h
            simp [h, DbCronAction.touchesBuckets]
          · simp at h
      · simp at h
    · simp only [List.mem_singleton] at h
      simp [h, DbCronAction.touchesBuckets]
  · intro resizeUpd rehashUpd m
    rw [hform]
    split
    · split
      · simp [runBuckets]
      · split <;> simp [runBuckets]
    · simp [runBuckets]

/-- Witness for C6: with an RDB child alive (`child_pid = 57`), the cron at
a concrete state does only expiration and defrag monitoring, and a bucket
map is untouched even under a resize semantics that would double every
bucket count. -/
theorem databasesCron_no_resize_while_child_witness :
    databasesCron { child_pid := 57 } 16 (fun _ => 0) (fun _ => 0) =
      [.actActiveExpireCycle, .actMonitorActiveDefrag] ∧
    runBuckets (fun _ _ m => fun k => 2 * m k) (fun _ _ m => fun k => 2 * m k)
        (databasesCron { child_pid := 57 } 16 (fun _ => 0) (fun _ => 0))
        (fun _ => 4) = (fun _ => 4) := by
  constructor
  · rfl
  · exact (databasesCron_no_resize_while_child { child_pid := 57 } 16
      (fun _ => 0) (fun _ => 0) (by decide)).2 _ _ _

/- ===================================================================
   Client-cron output buffer maintenance
   (server.c: clientsCronResizeOutputBuffer)
   =================================================================== -/

/-- The client fields read and written by `clientsCronResizeOutputBuffer`:
the static reply buffer's usable size, its observed peak, the current fill
position, and the time the peak was last reset.  `io_write_idle` is
`c->io_write_state == CLIENT_IDLE`. -/
structure ClientBuf where
  io_write_idle : Bool := true
  buf_usable_size : Nat := 16384
  buf_peak : Nat := 0
  bufpos : Nat := 0
  buf_peak_last_reset_time : Int := 0
  deriving Repr, DecidableEq

/-- `clientsCronResizeOutputBuffer(c, now_ms)`: on an idle client with
resizing enabled, pick a new buffer size — `max(PROTO_REPLY_MIN_BYTES,
buf_peak + 1)` when half the buffer is at least `PROTO_REPLY_MIN_BYTES`
and the peak is strictly below half the buffer, else
`min(PROTO_REPLY_CHUNK_BYTES, 2 * size)` when twice the size is below
`2 * PROTO_REPLY_CHUNK_BYTES` and the peak filled the buffer — then reset
the peak to the current fill if `reply_buffer_peak_reset_time` elapsed, and
reallocate when a new size was picked (`zmalloc_usable` is modelled as
returning exactly the requested size).  The two protocol constants live in
`server.h`, which is not part of src/, and are passed as parameters. -/
def clientsCronResizeOutputBuffer (protoReplyMinBytes protoReplyChunkBytes : Nat)
    (resizing_enabled : Bool) (reply_buffer_peak_reset_time : Int)
    (c : ClientBuf) (now_ms : Int) : ClientBuf :=
  if !c.io_write_idle then c
  else
    let buffer_target_shrink_size := c.buf_usable_size / 2
    let buffer_target_expand_size := c.buf_usable_size * 2
    if !resizing_enabled then c
    else
      let new_buffer_size :=
        if protoReplyMinBytes ≤ buffer_target_shrink_size ∧
            c.buf_peak < buffer_target_shrink_size then
          max protoReplyMinBytes (c.buf_peak + 1)
        else if buffer_target_expand_size < protoReplyChunkBytes * 2 ∧
            c.buf_peak = c.buf_usable_size then
          min protoReplyChunkBytes buffer_target_expand_size
        else 0
      let c1 :=
        if 0 ≤ reply_buffer_peak_reset_time ∧
            reply_buffer_peak_reset_time ≤ now_ms - c.buf_peak_last_reset_time then
          { c with buf_peak := c.bufpos, buf_peak_last_reset_time := now_ms }
        else c
      if new_buffer_size ≠ 0 then { c1 with buf_usable_size := new_buffer_size } else c1

/-- The buffer size the claim describes (spec wording, for comparison):
halve the buffer when the peak is at most half of it, double it when the
peak filled it, subject to the `PROTO_REPLY_MIN_BYTES` and
`PROTO_REPLY_CHUNK_BYTES` bounds. -/
def claimedResizeOutputBufferSize (protoReplyMinBytes protoReplyChunkBytes : Nat)
    (c : ClientBuf) : Nat :=
  if c.buf_peak * 2 ≤ c.buf_usable_size then
    max protoReplyMinBytes (c.buf_usable_size / 2)
  else if c.buf_peak = c.buf_usable_size then
    min protoReplyChunkBytes (c.buf_usable_size * 2)
  else c.buf_usable_size

/-- An idle 8 KiB buffer client whose peak is 100 bytes, for the C7
counterexample. -/
def c7Client : ClientBuf := { buf_usable_size := 8192, buf_peak := 100 }

/-- C7 counterexample: with `PROTO_REPLY_MIN_BYTES = 1024` and
`PROTO_REPLY_CHUNK_BYTES = 16384`, an idle client with an 8192-byte buffer
whose peak is 100 (at most half the buffer) is resized to 1024 bytes —
`max(PROTO_REPLY_MIN_BYTES, peak + 1)` — not to the half (4096) the claim's
"halved" demands. -/
theorem clientsCronResizeOutputBuffer_not_halved :
    (clientsCronResizeOutputBuffer 1024 16384 true (-1) c7Client 0).buf_usable_size = 1024 ∧
    claimedResizeOutputBufferSize 1024 16384 c7Client = 4096 ∧
    (1024 : Nat) ≠ 4096 := by
  refine ⟨by decide, by decide, by decide⟩

/-- C7 as amended: for an idle client with resizing enabled, (1) when half
the buffer is at least `PROTO_REPLY_MIN_BYTES` and the peak is strictly
below half the buffer, the buffer is shrunk to
`max(PROTO_REPLY_MIN_BYTES, peak + 1)`; (2) when the peak filled the buffer
and the buffer is below `PROTO_REPLY_CHUNK_BYTES`, the buffer is doubled,
capped at `PROTO_REPLY_CHUNK_BYTES`; (3) the peak is reset to the current
fill position whenever the configured reset period has elapsed, so idle
clients naturally shrink. -/
theorem clientsCronResizeOutputBuffer_resizes (minB chunkB : Nat)
    (reset_time now_ms : Int) (c : ClientBuf)
    (hidle : c.io_write_idle = true) :
    (minB ≤ c.buf_usable_size / 2 → c.buf_peak < c.buf_usable_size / 2 →
      (clientsCronResizeOutputBuffer minB chunkB true reset_time c now_ms).buf_usable_size =
        max minB (c.buf_peak + 1)) ∧
    (c.buf_usable_size < chunkB → c.buf_peak = c.buf_usable_size →
      (clientsCronResizeOutputBuffer minB chunkB true reset_time c now_ms).buf_usable_size =
        min chunkB (c.buf_usable_size * 2)) ∧
    (0 ≤ reset_time → reset_time ≤ now_ms - c.buf_peak_last_reset_time →
      (clientsCronResizeOutputBuffer minB chunkB true reset_time c now_ms).buf_peak =
          c.bufpos ∧
        (clientsCronResizeOutputBuffer minB chunkB true reset_time c
            now_ms).buf_peak_last_reset_time = now_ms) := by
  refine ⟨?_, ?_, ?_⟩
  · intro hmin hpeak
    simp only [clientsCronResizeOutputBuffer, hidle, Bool.not_true, Bool.false_eq_true,
      if_false]
    split_ifs <;> simp_all <;> omega
  · intro hsize hpeak
    simp only [clientsCronResizeOutputBuffer, hidle, Bool.not_true, Bool.false_eq_true,
      if_false]
    split_ifs <;> simp_all <;> omega
  · intro h0 helapsed
    simp only [clientsCronResizeOutputBuffer, hidle, Bool.not_true, Bool.false_eq_true,
      if_false]
    split_ifs <;> simp_all

/-- Witness for the amended C7: a 2048-byte buffer with peak 100 shrinks to
1024 = max(1024, 101); a filled 8192-byte buffer doubles to 16384; an
elapsed reset period resets the peak to the fill position 7. -/
theorem clientsCronResizeOutputBuffer_resizes_witness :
    (clientsCronResizeOutputBuffer 1024 16384 true (-1)
        { buf_usable_size := 2048, buf_peak := 100 } 0).buf_usable_size = 1024 ∧
    (clientsCronResizeOutputBuffer 1024 16384 true (-1)
        { buf_usable_size := 8192, buf_peak := 8192 } 0).buf_usable_size = 16384 ∧
    (clientsCronResizeOutputBuffer 1024 16384 true 5000
        { buf_usable_size := 16384, buf_peak := 9000, bufpos := 7,
          buf_peak_last_reset_time := 0 } 6000).buf_peak = 7 := by
  refine ⟨?_, ?_, ?_⟩
  · have h := (clientsCronResizeOutputBuffer_resizes 1024 16384 (-1) 0
      { buf_usable_size := 2048, buf_peak := 100 } rfl).1 (by norm_num) (by norm_num)
    rw [h]; decide
  · have h := (clientsCronResizeOutputBuffer_resizes 1024 16384 (-1) 0
      { buf_usable_size := 8192, buf_peak := 8192 } rfl).2.1 (by norm_num) rfl
    rw [h]; decide
  · exact ((clientsCronResizeOutputBuffer_resizes 1024 16384 5000 6000
      { buf_usable_size := 16384, buf_peak := 9000, bufpos := 7,
        buf_peak_last_reset_time := 0 } rfl).2.2 (by norm_num) (by norm_num)).1

/- ===================================================================
   Client memory-usage buckets (server.c: getMemUsageBucket,
   clientEvictionAllowed, removeClientFromMemUsageBucket,
   updateClientMemUsageAndBucket)
   =================================================================== -/

/-- The binary bit length computed by `size_in_bits - clz(mem)` in
`getMemUsageBucket`: `⌊log₂ mem⌋ + 1` for `mem > 0`, and 0 for `mem = 0`
(the code maps `clz(0)` to `size_in_bits`).  Written with the word size as
recursion fuel so that it evaluates by `Nat` division. -/
def nbitsAux (fuel n : Nat) : Nat :=
  match fuel, n with
  | _, 0 => 0
  | 0, _ => 0
  | fuel + 1, n => nbitsAux fuel (n / 2) + 1

theorem nbitsAux_zero (fuel : Nat) : nbitsAux fuel 0 = 0 := by
  cases fuel <;> rfl

/-- `nbitsAux` really is the bit length: a number in `[2^k, 2^(k+1))` has
`k + 1` bits, for any fuel beyond `k`. -/
theorem nbitsAux_eq (k : Nat) : ∀ fuel n, 2 ^ k ≤ n → n < 2 ^ (k + 1) → k < fuel →
    nbitsAux fuel n = k + 1 := by
  induction k with
  | zero =>
    intro fuel n h1 h2 hf
    have hn : n = 1 := by norm_num at h1 h2; omega
    subst hn
    cases fuel with
    | zero => omega
    | succ fuel => simp [nbitsAux, nbitsAux_zero]
  | succ k ih =>
    intro fuel n h1 h2 hf
    cases fuel with
    | zero => omega
    | succ fuel =>
      have hp1 : 2 ^ (k + 1) = 2 * 2 ^ k := by rw [pow_succ]; ring
      have hp2 : 2 ^ (k + 2) = 2 * 2 ^ (k + 1) := by rw [pow_succ 2 (k + 1)]; ring
      have hpk : 0 < 2 ^ k := Nat.pos_pow_of_pos k (by norm_num)
      obtain ⟨m, rfl⟩ : ∃ m, n = m + 1 := ⟨n - 1, by omega⟩
      have hstep : nbitsAux (fuel + 1) (m + 1) = nbitsAux fuel ((m + 1) / 2) + 1 := rfl
      rw [hstep, ih fuel ((m + 1) / 2) (by omega) (by omega) (by omega)]

/-- `getMemUsageBucket(mem)`, reduced to the bucket array index it selects.
The code computes `size_in_bits - clz(mem)`, i.e. the binary bit length of
`mem`, clamps it into `[CLIENT_MEM_USAGE_BUCKET_MIN_LOG,
CLIENT_MEM_USAGE_BUCKET_MAX_LOG]` and offsets by the minimum.  The two
constants live in `server.h`, which is not part of src/, and are passed as
parameters (15 and 33 in the distribution); `mem` is a 64-bit `size_t`. -/
def getMemUsageBucketIdx (minLog maxLog : Nat) (mem : Nat) : Nat :=
  let bucket_idx := nbitsAux 64 mem
  let clamped := if maxLog < bucket_idx then maxLog
    else if bucket_idx < minLog then minLog
    else bucket_idx
  clamped - minLog

/-- The bucket index the claim describes (spec wording, for comparison):
`⌊log₂ mem⌋` — one less than the bit length, for `mem > 0` — clamped into
`[MIN_LOG, MAX_LOG]`, offset by `MIN_LOG`. -/
def claimedMemUsageBucketIdx (minLog maxLog : Nat) (mem : Nat) : Nat :=
  let idx := nbitsAux 64 mem - 1
  let clamped := if maxLog < idx then maxLog
    else if idx < minLog then minLog
    else idx
  clamped - minLog

/-- C8 counterexample: with the distribution's constants
`CLIENT_MEM_USAGE_BUCKET_MIN_LOG = 15` and `MAX_LOG = 33`, a client using
`2^20 = 1048576` bytes lands in bucket `21 − 15 = 6` (the code clamps the
bit length `⌊log₂ mem⌋ + 1`), not in bucket `20 − 15 = 5` as `⌊log₂ mem⌋`
would give. -/
theorem getMemUsageBucketIdx_not_floor_log2 :
    getMemUsageBucketIdx 15 33 1048576 = 6 ∧
    claimedMemUsageBucketIdx 15 33 1048576 = 5 ∧
    getMemUsageBucketIdx 15 33 1048576 ≠ claimedMemUsageBucketIdx 15 33 1048576 := by
  refine ⟨by decide, by decide, by decide⟩

/-- The client types distinguished by `getClientType`; modelled from the
spec since `networking.c` is not part of src/: a primary-flagged client is
`primaryType`, a replica-flagged one `replicaType`, subscribers `pubsub`,
the rest `normal`. -/
inductive ClientType where
  | normal | primaryType | replicaType | pubsub
  deriving Repr, DecidableEq

/-- The client fields consulted by eviction bucketing. -/
structure ClientMem where
  no_evict : Bool := false
  fake : Bool := false
  is_primary : Bool := false
  is_replica : Bool := false
  is_pubsub : Bool := false
  last_memory_usage : Nat := 0
  mem_usage_bucket : Option Nat := none
  deriving Repr, DecidableEq

/-- Modelled from the spec: `getClientType` lives in `networking.c`, which
is not part of src/.  Primary and replica connections get their own types;
subscribers are `pubsub`; everything else is `normal`. -/
def getClientType (c : ClientMem) : ClientType :=
  if c.is_primary then .primaryType
  else if c.is_replica then .replicaType
  else if c.is_pubsub then .pubsub
  else .normal

/-- `clientEvictionAllowed(c)`: disabled when `maxmemory_clients` is 0 or
the client is no-evict or fake; otherwise only normal and pubsub clients
may be evicted. -/
def clientEvictionAllowed (maxmemory_clients : Nat) (c : ClientMem) : Bool :=
  if maxmemory_clients = 0 || c.no_evict || c.fake then false
  else
    let t := getClientType c
    decide (t = .normal ∨ t = .pubsub)

/-- `removeClientFromMemUsageBucket(c, allow_eviction)`: a client that may
no longer be evicted is taken out of its bucket. -/
def removeClientFromMemUsageBucket (c : ClientMem) (allow_eviction : Bool) : ClientMem :=
  if c.mem_usage_bucket.isSome ∧ !allow_eviction then
    { c with mem_usage_bucket := none }
  else c

/-- `updateClientMemUsageAndBucket(c)`: refuses (returning 0 and leaving
the client in no bucket) when eviction is not allowed for this client;
otherwise refreshes the memory usage (`updateClientMemoryUsage`, whose
fresh measurement is the oracle `mem`) and places the client into the
bucket `getMemUsageBucket` selects. -/
def updateClientMemUsageAndBucket (minLog maxLog maxmemory_clients : Nat)
    (mem : Nat) (c : ClientMem) : ClientMem × Bool :=
  let allow_eviction := clientEvictionAllowed maxmemory_clients c
  let c1 := removeClientFromMemUsageBucket c allow_eviction
  if !allow_eviction then (c1, false)
  else
    let c2 := { c1 with last_memory_usage := mem }
    let bucket := getMemUsageBucketIdx minLog maxLog mem
    ({ c2 with mem_usage_bucket := some bucket }, true)

/-- C8 as amended: for memory usage `mem` with `⌊log₂ mem⌋ = k` (that is,
`2^k ≤ mem < 2^(k+1)`), the bucket index is the bit length `k + 1` — not
`⌊log₂ mem⌋ = k` — clamped into `[MIN_LOG, MAX_LOG]` and offset by
`MIN_LOG`; and primary, replica and no-evict clients are never placed into
any bucket, whatever the configuration. -/
theorem memUsageBucket_bitlength_and_exclusions (minLog maxLog k mem : Nat)
    (hk : k < 64) (hlo : 2 ^ k ≤ mem) (hhi : mem < 2 ^ (k + 1)) :
    (minLog ≤ k + 1 → k + 1 ≤ maxLog →
      getMemUsageBucketIdx minLog maxLog mem = k + 1 - minLog) ∧
    (maxLog < k + 1 → getMemUsageBucketIdx minLog maxLog mem = maxLog - minLog) ∧
    (k + 1 < minLog → getMemUsageBucketIdx minLog maxLog mem = 0) ∧
    (∀ (maxmemory_clients : Nat) (c : ClientMem),
      c.is_primary = true ∨ c.is_replica = true ∨ c.no_evict = true →
      (updateClientMemUsageAndBucket minLog maxLog maxmemory_clients mem c).1.mem_usage_bucket
          = none ∧
        (updateClientMemUsageAndBucket minLog maxLog maxmemory_clients mem c).2 = false) := by
  have hbits : nbitsAux 64 mem = k + 1 := nbitsAux_eq k 64 mem hlo hhi hk
  refine ⟨?_, ?_, ?_, ?_⟩
  · intro h1 h2
    simp only [getMemUsageBucketIdx, hbits]
    split_ifs <;> omega
  · intro h1
    simp only [getMemUsageBucketIdx, hbits]
    split_ifs <;> omega
  · intro h1
    simp only [getMemUsageBucketIdx, hbits]
    split_ifs <;> omega
  · intro maxmemory_clients c hexcl
    have hallow : clientEvictionAllowed maxmemory_clients c = false := by
      rcases hexcl with h | h | h <;>
        simp [clientEvictionAllowed, getClientType, h] <;>
        split_ifs <;> simp_all [getClientType]
    refine ⟨?_, ?_⟩ <;>
      cases hb : c.mem_usage_bucket <;>
        simp [updateClientMemUsageAndBucket, hallow, removeClientFromMemUsageBucket, hb]

/-- Witness for the amended C8: 1048576 = 2^20 bytes lands in bucket
6 = 21 − 15 with the distribution constants, and a replica client holding a
stale bucket slot is removed and not re-bucketed. -/
theorem memUsageBucket_bitlength_and_exclusions_witness :
    getMemUsageBucketIdx 15 33 1048576 = 21 - 15 ∧
    (updateClientMemUsageAndBucket 15 33 100 1048576
        { is_replica := true, mem_usage_bucket := some 3 }).1.mem_usage_bucket = none := by
  have h := memUsageBucket_bitlength_and_exclusions 15 33 20 1048576
    (by norm_num) (by norm_num) (by norm_num)
  constructor
  · exact h.1 (by norm_num) (by norm_num)
  · exact (h.2.2.2 100
      { is_replica := true, mem_usage_bucket := some 3 } (Or.inr (Or.inl rfl))).1

/- ===================================================================
   The echoMinWoo command (server.c: echoMinWooCommand)
   =================================================================== -/

/-- Modelled from the spec: `sdscatfmt` lives in `sds.c`, which is not part
of src/.  Its `%s` directive appends a C string, i.e. the bytes of the
argument up to (and excluding) its first NUL byte. -/
def cstringBytes (bs : List UInt8) : List UInt8 :=
  bs.takeWhile (· ≠ 0)

/-- The literal `"echoMinWoo_"` as bytes (`e c h o M i n W o o _`). -/
def echoMinWooTag : List UInt8 :=
  [101, 99, 104, 111, 77, 105, 110, 87, 111, 111, 95]

/-- `echoMinWooCommand(c)`: builds `sdscatfmt(sdsempty(),
"echoMinWoo_%s", c->argv[1]->ptr)` and replies it as a bulk string.  The
argument's bytes are the input; the result is the reply payload. -/
def echoMinWooCommand (argv1 : List UInt8) : List UInt8 :=
  echoMinWooTag ++ cstringBytes argv1

theorem takeWhile_ne_zero_append (pre post : List UInt8) (hpre : (0 : UInt8) ∉ pre) :
    (pre ++ (0 : UInt8) :: post).takeWhile (· ≠ 0) = pre := by
  induction pre with
  | nil => simp [List.takeWhile]
  | cons b rest ih =>
    have hb : b ≠ 0 := fun h => hpre (h ▸ List.mem_cons_self b rest)
    have hrest : (0 : UInt8) ∉ rest := fun h => hpre (List.mem_cons_of_mem b h)
    simp only [List.cons_append, List.takeWhile_cons]
    rw [if_pos (by simpa using hb), ih hrest]

/-- C9: `echoMinWooCommand` replies the literal prefix `"echoMinWoo_"`
followed by the bytes of the first argument up to its first NUL byte: an
argument without a NUL passes through whole, while a binary-safe argument
with an embedded NUL is truncated at the NUL. -/
theorem echoMinWooCommand_reply (arg pre post : List UInt8)
    (hnonul : (0 : UInt8) ∉ arg) (hpre : (0 : UInt8) ∉ pre) :
    echoMinWooCommand arg = echoMinWooTag ++ arg ∧
    echoMinWooCommand (pre ++ (0 : UInt8) :: post) = echoMinWooTag ++ pre := by
  constructor
  · have hall : ∀ x ∈ arg, ¬ x = 0 := fun x hx heq => hnonul (heq ▸ hx)
    have ht : arg.takeWhile (· ≠ 0) = arg := by
      rw [List.takeWhile_eq_self_iff]
      intro b hb
      simpa using hall b hb
    show echoMinWooTag ++ arg.takeWhile (· ≠ 0) = echoMinWooTag ++ arg
    rw [ht]
  · show echoMinWooTag ++ (pre ++ (0 : UInt8) :: post).takeWhile (· ≠ 0) =
      echoMinWooTag ++ pre
    rw [takeWhile_ne_zero_append pre post hpre]

/-- Witness for C9: the argument `"hi\x00x"` (bytes 104 105 0 120) is
truncated at the NUL, yielding `"echoMinWoo_hi"`; the NUL-free argument
`"hi"` passes through whole. -/
theorem echoMinWooCommand_reply_witness :
    echoMinWooCommand [104, 105] = echoMinWooTag ++ [104, 105] ∧
    echoMinWooCommand [104, 105, 0, 120] = echoMinWooTag ++ [104, 105] := by
  have h := echoMinWooCommand_reply [104, 105] [104, 105] [120]
    (by decide) (by decide)
  exact ⟨h.1, h.2⟩

end Valkey
